import Mathlib

/-!
Verification development for the DNSHE free-subdomain auto-renewal script
(`renew.py`).  The script is a single linear batch job: it reads an
`ACCOUNTS_JSON` environment variable, and for each account lists its
subdomains and attempts to renew each one over a JSON/HTTP API, finally
rendering a Markdown report.

The embedding models Python runtime values (`PyVal`), Python truthiness,
`dict.get`, `or`-coalescing, `str()` conversion, string `+=`, and iteration,
exactly as CPython behaves on them.  Uncaught Python exceptions are modelled
with `Except String`: an `Except.error` value is an exception propagating out
of the function (the script has no `try` block outside `call_api`, so such an
exception aborts the whole process).  The network is external to the script,
so each API call site takes a `NetResult` oracle describing what the single
HTTP request at that site produced; `call_api` is then the script's pure
response-classification logic from `renew.py`.
-/

namespace DnsheRenew

/-- Python runtime values as they can arise from `json.loads`, plus `None`.
(The script never manipulates floats, so numbers are modelled as integers.) -/
inductive PyVal where
| none : PyVal
| bool : Bool → PyVal
| int : Int → PyVal
| str : String → PyVal
| list : List PyVal → PyVal
| dict : List (String × PyVal) → PyVal
deriving Repr

/-- Python's type name, as it appears in exception messages. -/
def pyTypeName : PyVal → String
| .none => "NoneType"
| .bool _ => "bool"
| .int _ => "int"
| .str _ => "str"
| .list _ => "list"
| .dict _ => "dict"

/-- Python truthiness (`bool(v)`). -/
def truthy : PyVal → Bool
| .none => false
| .bool b => b
| .int n => decide (n ≠ 0)
| .str s => decide (s.length ≠ 0)
| .list xs => decide (xs.length ≠ 0)
| .dict kvs => decide (kvs.length ≠ 0)

/-- Key lookup in a dict's entry list: `Option.some` iff the key is present. -/
def pyFind (kvs : List (String × PyVal)) (k : String) : Option PyVal :=
  match kvs with
  | [] => Option.none
  | (k', v) :: rest => if k' = k then Option.some v else pyFind rest k

/-- `d.get(k)`: the value at `k`, or `None` when absent. -/
def pyLookup (kvs : List (String × PyVal)) (k : String) : PyVal :=
  (pyFind kvs k).getD PyVal.none

/-- `d.get(k, default)`: the default is used only when the key is absent
(a key present with value `None` still yields `None`). -/
def pyLookupD (kvs : List (String × PyVal)) (k : String) (d : PyVal) : PyVal :=
  (pyFind kvs k).getD d

/-- `v.get(k)` on an arbitrary value: raises `AttributeError` unless `v` is a
dict.  The error string is CPython's exception text. -/
def attrGetErr (v : PyVal) : String :=
  "\x27" ++ pyTypeName v ++ "\x27 object has no attribute \x27get\x27"

/-- Python `a or b`: `a` when truthy, else `b`. -/
def pyOr (a b : PyVal) : PyVal := if truthy a then a else b

mutual
/-- Python `repr(v)` (strings are modelled without escape processing, which
the script never depends on). -/
def pyRepr : PyVal → String
| .none => "None"
| .bool true => "True"
| .bool false => "False"
| .int n => toString n
| .str s => "\x27" ++ s ++ "\x27"
| .list xs => "[" ++ String.intercalate ", " (pyReprList xs) ++ "]"
| .dict kvs => "\x7b" ++ String.intercalate ", " (pyReprKVs kvs) ++ "\x7d"

def pyReprList : List PyVal → List String
| [] => []
| v :: vs => pyRepr v :: pyReprList vs

def pyReprKVs : List (String × PyVal) → List String
| [] => []
| (k, v) :: kvs => ("\x27" ++ k ++ "\x27: " ++ pyRepr v) :: pyReprKVs kvs
end

/-- Python `str(v)`, as used by f-string interpolation. -/
def pyStr : PyVal → String
| .str s => s
| v => pyRepr v

/-- Python `v += s` for a string right operand: concatenation for strings,
`extend` with the characters for lists, `TypeError` otherwise (the error
string is CPython's exception text). -/
def pyIAddStr (v : PyVal) (s : String) : Except String PyVal :=
  match v with
  | .str t => Except.ok (.str (t ++ s))
  | .list xs => Except.ok (.list (xs ++ s.data.map (fun c => .str (String.singleton c))))
  | w => Except.error ("unsupported operand type(s) for +=: \x27" ++ pyTypeName w
      ++ "\x27 and \x27str\x27")

/-- Python iteration `for x in v`: lists yield elements, strings yield
one-character strings, dicts yield their keys, everything else raises
`TypeError`. -/
def pyIter : PyVal → Except String (List PyVal)
| .list xs => Except.ok xs
| .str s => Except.ok (s.data.map (fun c => .str (String.singleton c)))
| .dict kvs => Except.ok (kvs.map (fun kv => .str kv.1))
| v => Except.error ("\x27" ++ pyTypeName v ++ "\x27 object is not iterable")

/-- `Bool`-valued "is a string" test. -/
def pyIsStr : PyVal → Bool
| .str _ => true
| _ => false

/-- `Bool`-valued "is a list" test. -/
def pyIsList : PyVal → Bool
| .list _ => true
| _ => false

/-- `Bool`-valued success test for the exception monad. -/
def isOkE {α : Type} : Except String α → Bool
| .ok _ => true
| .error _ => false

/-- What the single HTTP request behind one `call_api` invocation produced:
a transport failure (`requests` exception) or an HTTP response with a status
code, a `Content-Type` header value, and a body that either parses as JSON
(`Option.some` the parsed value) or does not (`Option.none`). -/
inductive NetResult where
| timeout : NetResult
| connError : NetResult
| excOther : String → NetResult
| response : Nat → String → Option PyVal → NetResult

/-- Request-header construction from `call_api` (renew.py lines 24–28):
start from the `Content-Type` template and add `X-API-Key` / `X-API-Secret`
each under its own truthiness test. -/
def build_headers (api_key api_secret : PyVal) : List (String × PyVal) :=
  let h0 := [("Content-Type", PyVal.str "application/json")]
  let h1 := if truthy api_key then h0 ++ [("X-API-Key", api_key)] else h0
  if truthy api_secret then h1 ++ [("X-API-Secret", api_secret)] else h1

/-- Naive substring test (`pat in s` on the underlying characters). -/
def infixOfB (pat : List Char) : List Char → Bool
| [] => pat.isEmpty
| c :: rest => pat.isPrefixOf (c :: rest) || infixOfB pat rest

/-- Python `pat in s` for strings. -/
def strContainsB (s pat : String) : Bool := infixOfB pat.data s.data

/-- Response classification of `call_api` (renew.py lines 31–75).  The whole
body sits inside `try: ... except ...`, so every exception raised while
classifying (in particular `AttributeError` from `.get` on a non-dict JSON
body and `TypeError` from `+=` on a non-string message) is caught and turned
into the generic `请求异常: ...` failure dict.  The function always returns a
plain Python value, never raises. -/
def call_api (net : NetResult) : PyVal :=
  match net with
  | .timeout => .dict [("success", .bool false), ("error", .str "请求超时")]
  | .connError => .dict [("success", .bool false), ("error", .str "网络连接失败")]
  | .excOther m => .dict [("success", .bool false), ("error", .str ("请求异常: " ++ m))]
  | .response st ct body =>
    match body with
    | Option.none =>
      if strContainsB ct "text/html" then
        .dict [("success", .bool false),
               ("error", .str ("服务器返回 HTML 页面 (HTTP " ++ toString st ++ ")，可能权限不足或需要登录")),
               ("http_status", .int (Int.ofNat st))]
      else
        .dict [("success", .bool false),
               ("error", .str ("服务器返回非 JSON 响应 (HTTP " ++ toString st ++ ")")),
               ("http_status", .int (Int.ofNat st))]
    | Option.some result =>
      if st ≠ 200 then
        match result with
        | .dict kvs =>
          let base := pyOr (pyLookup kvs "message")
            (pyOr (pyLookup kvs "error") (.str ("HTTP " ++ toString st)))
          let hinted : Except String PyVal :=
            if st = 403 then pyIAddStr base "（域名尚未进入续期窗口，需到期前180天内续期）"
            else if st = 401 then pyIAddStr base "（认证失败，请检查 API Key/Secret）"
            else if st = 429 then pyIAddStr base "（请求过于频繁，请稍后再试）"
            else Except.ok base
          match hinted with
          | Except.ok v =>
            .dict [("success", .bool false), ("error", v), ("http_status", .int (Int.ofNat st))]
          | Except.error e =>
            .dict [("success", .bool false), ("error", .str ("请求异常: " ++ e))]
        | v => .dict [("success", .bool false), ("error", .str ("请求异常: " ++ attrGetErr v))]
      else result

/-- The per-domain renewal outcome dict `{"status": ..., "message": ...}`
built by `renew_subdomain`: `status` is always one of the two literal strings
`"success"` / `"failed"`, while `message` can carry any Python value (the
failure branch copies the response's `message`/`error` field unchanged). -/
structure RenewalOutcome where
  status : String
  message : PyVal
deriving Repr

/-- Outcome classification of `renew_subdomain` (renew.py lines 89–103),
applied to the value `call_api` returned.  `.get` is attribute access on the
result: when the result is not a dict (only possible for an HTTP 200 response
whose JSON body is not an object) the `AttributeError` propagates uncaught. -/
def renew_classify (result : PyVal) : Except String RenewalOutcome :=
  match result with
  | .dict kvs =>
    if truthy (pyLookup kvs "success") then
      Except.ok ⟨"success",
        .str ("续期成功，新到期时间 " ++ pyStr (pyLookupD kvs "new_expires_at" (.str "未知")))⟩
    else
      Except.ok ⟨"failed",
        pyOr (pyLookup kvs "message") (pyOr (pyLookup kvs "error") (.str "未知错误"))⟩
  | v => Except.error (attrGetErr v)

/-- `renew_subdomain` (renew.py lines 77–103): one renew POST, classified.
The network outcome of the single request is the `net` oracle. -/
def renew_subdomain (net : NetResult) : Except String RenewalOutcome :=
  renew_classify (call_api net)

/-- Full-domain derivation on a subdomain dict's entries (renew.py line 134):
`sub.get("full_domain") or f"{sub.get('subdomain')}.{sub.get('rootdomain')}"`. -/
def fullDomainOfKvs (skvs : List (String × PyVal)) : PyVal :=
  pyOr (pyLookup skvs "full_domain")
    (.str (pyStr (pyLookup skvs "subdomain") ++ "." ++ pyStr (pyLookup skvs "rootdomain")))

/-- Full-domain derivation on an arbitrary listed entry: `.get` raises
`AttributeError` when the entry is not a dict. -/
def full_domain_of (sub : PyVal) : Except String PyVal :=
  match sub with
  | .dict skvs => Except.ok (fullDomainOfKvs skvs)
  | v => Except.error (attrGetErr v)

/-- Whether a listed entry would reach the renewal call: it must be a dict
whose `id` value is truthy (renew.py lines 133–136). -/
def subHasId : PyVal → Bool
| .dict skvs => truthy (pyLookup skvs "id")
| _ => false

/-- The renewal loop of `process_account` (renew.py lines 131–141) over the
listed entries.  `renewNet i` is the network outcome of the renew request for
the entry at position `i`; entries with a falsy `id` are skipped without a
request.  Returns the accumulated `(domain, outcome)` pairs together with the
number of renew API calls performed; an `Except.error` is an uncaught
exception aborting the process. -/
def renewLoop (renewNet : Nat → NetResult) :
    List PyVal → Nat → Except String (List (PyVal × RenewalOutcome) × Nat)
| [], _ => Except.ok ([], 0)
| sub :: rest, i =>
  match sub with
  | .dict skvs =>
    let sub_id := pyLookup skvs "id"
    let full_domain := fullDomainOfKvs skvs
    if truthy sub_id then
      match renew_subdomain (renewNet i) with
      | Except.error e => Except.error e
      | Except.ok res =>
        match renewLoop renewNet rest (i + 1) with
        | Except.error e => Except.error e
        | Except.ok (rs, c) => Except.ok ((full_domain, res) :: rs, c + 1)
    else renewLoop renewNet rest (i + 1)
  | v => Except.error (attrGetErr v)

/-- What `process_account` returns (renew.py lines 105–142): `skipped`
models `None` (missing key or secret), `error` the `{"error": msg}` marker,
`info` the `{"message": "无子域名"}` marker, and `results` the
`{"results": [...]}` dict of `(domain, outcome)` pairs. -/
inductive AccountResult where
| skipped : AccountResult
| error : PyVal → AccountResult
| info : String → AccountResult
| results : List (PyVal × RenewalOutcome) → AccountResult
deriving Repr

/-- `process_account` (renew.py lines 105–142).  `listNet` is the network
outcome of the single list request, `renewNet` the per-position renew
oracles.  The returned `Nat` counts the API calls made (the list call plus
one per attempted renewal).  `.get` on a non-dict account or list response
raises `AttributeError`, and a non-iterable `subdomains` value raises
`TypeError`; both propagate uncaught (`Except.error`). -/
def process_account (account : PyVal) (listNet : NetResult) (renewNet : Nat → NetResult) :
    Except String (AccountResult × Nat) :=
  match account with
  | .dict akvs =>
    if truthy (pyLookup akvs "key") && truthy (pyLookup akvs "secret") then
      match call_api listNet with
      | .dict lkvs =>
        if truthy (pyLookup lkvs "success") then
          let subdomains := pyLookupD lkvs "subdomains" (.list [])
          if truthy subdomains then
            match pyIter subdomains with
            | Except.error e => Except.error e
            | Except.ok subs =>
              match renewLoop renewNet subs 0 with
              | Except.error e => Except.error e
              | Except.ok (rs, c) => Except.ok (.results rs, 1 + c)
          else Except.ok (.info "无子域名", 1)
        else
          Except.ok (.error (pyOr (pyLookup lkvs "message")
            (pyOr (pyLookup lkvs "error") (.str "列表获取失败"))), 1)
      | v => Except.error (attrGetErr v)
    else Except.ok (.skipped, 0)
  | v => Except.error (attrGetErr v)

/-- The account loop of `main` (renew.py lines 158–165): process each account
in order, pairing it with its index.  `listNet i` / `renewNet i` are the
network oracles for account `i`.  The `Nat` is the total number of API calls;
an `Except.error` is an uncaught exception that aborts the whole process,
dropping all collected results. -/
def runAccountsAux (listNet : Nat → NetResult) (renewNet : Nat → Nat → NetResult) :
    List PyVal → Nat → Except String (List (Nat × AccountResult) × Nat)
| [], _ => Except.ok ([], 0)
| a :: rest, i =>
  match process_account a (listNet i) (renewNet i) with
  | Except.error e => Except.error e
  | Except.ok (r, c) =>
    match runAccountsAux listNet renewNet rest (i + 1) with
    | Except.error e => Except.error e
    | Except.ok (rs, c') => Except.ok ((i, r) :: rs, c + c')

/-- One table row of the report (renew.py line 192). -/
def renderOutcomeRow (r : PyVal × RenewalOutcome) : String :=
  "| " ++ pyStr r.1 ++ " | " ++ (if r.2.status = "success" then "✅" else "❌")
    ++ " | " ++ pyStr r.2.message ++ " |\n"

/-- One per-account section of the report (renew.py lines 175–193). -/
def renderAccountSection (idx : Nat) (res : AccountResult) : String :=
  "## 账号 " ++ toString (idx + 1) ++ "\n\n" ++
  match res with
  | .skipped => "账号配置无效，已跳过\n\n"
  | .error m => "❌ 处理失败: " ++ pyStr m ++ "\n\n"
  | .info m => "ℹ️ " ++ m ++ "\n\n"
  | .results rs =>
    if rs.isEmpty then "无子域名\n\n"
    else "| 域名 | 状态 | 详细信息 |\n" ++ "|------|------|----------|\n"
      ++ String.join (rs.map renderOutcomeRow) ++ "\n"

/-- All per-account sections, enumerated from a starting index. -/
def renderSections : List AccountResult → Nat → String
| [], _ => ""
| r :: rest, i => renderAccountSection i r ++ renderSections rest (i + 1)

/-- The full Markdown report (renew.py lines 171–195): heading, timestamp
line, one section per account in order, closing notice. -/
def renderReport (ts : String) (results : List AccountResult) : String :=
  "# DNSHE 免费域名续期结果\n\n" ++ "执行时间: " ++ ts ++ "\n\n"
    ++ renderSections results 0 ++ "---\n"
    ++ "> 自动续期任务执行完毕，更多详情请查看工作流日志。\n"

/-- The RunReport of the spec's data model: the ordered per-account results
plus the run's timestamp. -/
structure RunReport where
  timestamp : String
  results : List AccountResult

/-- Rendering a RunReport to its Markdown text. -/
def renderRunReport (r : RunReport) : String := renderReport r.timestamp r.results

/-- The outcome of reading and parsing `ACCOUNTS_JSON` (renew.py lines
145–156), abstracting the JSON parser: the variable is unset (or empty, which
the falsiness test treats the same), or `json.loads` raises, or it parses to
a Python value. -/
inductive ParseOutcome where
| unset : ParseOutcome
| parseError : ParseOutcome
| parsed : PyVal → ParseOutcome

/-- How the process ends: a clean `sys.exit`-style termination with an exit
code, the total number of API calls performed, and the report written to the
summary sink (when configured); or a crash from an uncaught exception (which
CPython turns into a traceback and a nonzero exit). -/
inductive MainOutcome where
| exited : Nat → Nat → Option String → MainOutcome
| crashed : String → MainOutcome
deriving Repr

/-- `main` (renew.py lines 144–199): exit 1 before any network activity when
`ACCOUNTS_JSON` is unset, unparseable, or not a JSON array; otherwise run the
account loop and, if `GITHUB_STEP_SUMMARY` is set (`summary` holds the run's
timestamp string in that case), render the report; exit 0 on completion. -/
def mainRun (env : ParseOutcome) (listNet : Nat → NetResult)
    (renewNet : Nat → Nat → NetResult) (summary : Option String) : MainOutcome :=
  match env with
  | .unset => .exited 1 0 Option.none
  | .parseError => .exited 1 0 Option.none
  | .parsed v =>
    match v with
    | .list accounts =>
      match runAccountsAux listNet renewNet accounts 0 with
      | Except.error e => .crashed e
      | Except.ok (rs, c) =>
        .exited 0 c (summary.map (fun ts => renderReport ts (rs.map Prod.snd)))
    | _ => .exited 1 0 Option.none

/-! ## Helper lemmas -/

lemma pyIsStr_iff (v : PyVal) : pyIsStr v = true ↔ ∃ s, v = .str s := by
  cases v <;> simp [pyIsStr]

lemma truthy_str_append_right (s t : String) (h : 0 < t.length) :
    truthy (.str (s ++ t)) = true := by
  simp [truthy, String.length_append]
  omega

/-! ## Claim theorems -/

/-- C9: for a listed subdomain entry with `subdomain` field `"foo"` and
`rootdomain` field `"bar.com"` and no `full_domain` field, the derived full
domain name is exactly the string `"foo.bar.com"`. -/
theorem full_domain_foo_bar_concrete :
    full_domain_of (.dict [("subdomain", .str "foo"), ("rootdomain", .str "bar.com")])
      = Except.ok (.str "foo.bar.com") := rfl

/-- C10: whenever the `full_domain` value of a listed entry is falsy (absent,
`None`, or the empty string), the fallback concatenation
`str(subdomain) + "." + str(rootdomain)` is used, so absent fields surface as
the literal text `None`: an entry with only an `id` gets the domain
`"None.None"`, an empty-string `full_domain` is replaced by the fallback, and
the fallback string is what the renewal loop records in the outcome. -/
theorem full_domain_fallback_none_fields :
    (∀ skvs : List (String × PyVal), truthy (pyLookup skvs "full_domain") = false →
      fullDomainOfKvs skvs
        = .str (pyStr (pyLookup skvs "subdomain") ++ "." ++ pyStr (pyLookup skvs "rootdomain")))
    ∧ full_domain_of (.dict [("id", .str "x")]) = Except.ok (.str "None.None")
    ∧ full_domain_of (.dict [("full_domain", .str ""), ("subdomain", .str "a"),
        ("rootdomain", .str "b")]) = Except.ok (.str "a.b")
    ∧ renewLoop (fun _ => NetResult.timeout) [.dict [("id", .str "x")]] 0
        = Except.ok ([(.str "None.None", ⟨"failed", .str "请求超时"⟩)], 1) := by
  refine ⟨?_, rfl, rfl, rfl⟩
  intro skvs h
  simp [fullDomainOfKvs, pyOr, h]

/-- Witness for C10 at the concrete entry `{"id": "x"}`. -/
theorem full_domain_fallback_none_fields_witness :
    truthy (pyLookup [("id", PyVal.str "x")] "full_domain") = false
    ∧ fullDomainOfKvs [("id", PyVal.str "x")]
        = .str (pyStr (pyLookup [("id", PyVal.str "x")] "subdomain") ++ "."
            ++ pyStr (pyLookup [("id", PyVal.str "x")] "rootdomain")) :=
  ⟨rfl, full_domain_fallback_none_fields.1 [("id", PyVal.str "x")] rfl⟩

/-- C5: rendering is a pure function of the RunReport (the per-account
results together with the run's timestamp), so rendering the same RunReport
twice yields byte-identical Markdown. -/
theorem render_deterministic (r₁ r₂ : RunReport) (h : r₁ = r₂) :
    renderRunReport r₁ = renderRunReport r₂ :=
  congrArg renderRunReport h

/-- Witness for C5 at a concrete one-account RunReport. -/
theorem render_deterministic_witness :
    renderRunReport ⟨"2026-01-01 00:00:00", [AccountResult.skipped]⟩
      = renderRunReport ⟨"2026-01-01 00:00:00", [AccountResult.skipped]⟩ :=
  render_deterministic _ _ rfl

/-- C2 counterexample: with a key but no secret, `call_api` still attaches
the `X-API-Key` credential header, although the claim says that with exactly
one credential present no credential header is sent. -/
theorem header_sent_with_only_key :
    "X-API-Key" ∈ (build_headers (.str "k") PyVal.none).map Prod.fst := by decide

/-- C2 amended: the two credential headers are attached independently,
each exactly when its own value is truthy (renew.py lines 25–28); with
exactly one credential present, that one credential header is still sent. -/
theorem headers_attached_independently (api_key api_secret : PyVal) :
    (("X-API-Key" ∈ (build_headers api_key api_secret).map Prod.fst)
        ↔ truthy api_key = true)
    ∧ (("X-API-Secret" ∈ (build_headers api_key api_secret).map Prod.fst)
        ↔ truthy api_secret = true) := by
  cases hk : truthy api_key <;> cases hs : truthy api_secret <;>
    simp [build_headers, hk, hs]

/-- C6 counterexample: a renewal response whose `success` field is the
string `"false"` — not the boolean `true` — still yields a `success` outcome,
because the code branches on Python truthiness rather than on `success`
being `true`. -/
theorem renew_truthy_nonbool_success :
    renew_subdomain (.response 200 "" (Option.some (.dict [("success", .str "false")])))
      = Except.ok ⟨"success", .str "续期成功，新到期时间 未知"⟩
    ∧ PyVal.str "false" ≠ PyVal.bool true :=
  ⟨rfl, fun h => PyVal.noConfusion h⟩

/-- C6 amended: for every renewal response that is a JSON object, a truthy
`success` field yields a `success` outcome whose message carries the
`new_expires_at` value (`"未知"`, i.e. "unknown", when the field is absent),
and a falsy `success` field yields a `failed` outcome whose message is the
first truthy of the response's `message` field, its `error` field, and the
generic `"未知错误"` ("unknown error") text. -/
theorem renew_outcome_by_truthiness (kvs : List (String × PyVal)) :
    (truthy (pyLookup kvs "success") = true →
      renew_classify (.dict kvs)
        = Except.ok ⟨"success", .str ("续期成功，新到期时间 "
            ++ pyStr (pyLookupD kvs "new_expires_at" (.str "未知")))⟩)
    ∧ (truthy (pyLookup kvs "success") = false →
      renew_classify (.dict kvs)
        = Except.ok ⟨"failed",
            pyOr (pyLookup kvs "message") (pyOr (pyLookup kvs "error") (.str "未知错误"))⟩) := by
  constructor <;> intro h <;> simp [renew_classify, h]

/-- Witness for C6 at the spec's example response
`{success: true, new_expires_at: "2026-01-01"}` and at a failing response. -/
theorem renew_outcome_by_truthiness_witness :
    (truthy (pyLookup [("success", PyVal.bool true), ("new_expires_at", PyVal.str "2026-01-01")]
        "success") = true
      ∧ renew_classify (.dict [("success", PyVal.bool true),
            ("new_expires_at", PyVal.str "2026-01-01")])
        = Except.ok ⟨"success", .str "续期成功，新到期时间 2026-01-01"⟩)
    ∧ (truthy (pyLookup [("success", PyVal.bool false), ("message", PyVal.str "over quota")]
        "success") = false
      ∧ renew_classify (.dict [("success", PyVal.bool false), ("message", PyVal.str "over quota")])
        = Except.ok ⟨"failed", .str "over quota"⟩) :=
  ⟨⟨rfl, (renew_outcome_by_truthiness _).1 rfl⟩,
   ⟨rfl, (renew_outcome_by_truthiness _).2 rfl⟩⟩

/-- C1 counterexample: a renewal response with HTTP status 403 and an HTML
body does not get the 180-day renewal-window hint — the non-JSON branch of
`call_api` returns before the status-code hints are reached, so the outcome
message is the HTML-page error without the hint. -/
theorem renew_403_html_no_hint :
    renew_subdomain (.response 403 "text/html" Option.none)
      = Except.ok ⟨"failed", .str "服务器返回 HTML 页面 (HTTP 403)，可能权限不足或需要登录"⟩
    ∧ strContainsB "服务器返回 HTML 页面 (HTTP 403)，可能权限不足或需要登录"
        "（域名尚未进入续期窗口，需到期前180天内续期）" = false := by
  exact ⟨rfl, by decide⟩

/-- C1 amended: the 180-day renewal-window hint is appended for a 403
response exactly when the body parses as a JSON object and the extracted
message (`message` field, else `error` field, else `"HTTP 403"`) is a
string; in that case the outcome message ends with the hint.  (A non-JSON
body takes the HTML/non-JSON branch without the hint, a non-object JSON body
raises `AttributeError` inside the `try` block, and a non-string message
raises `TypeError` on `+=`, both caught and replaced by a generic `请求异常`
message without the hint.) -/
theorem renew_403_object_body_hint (ct : String) (kvs : List (String × PyVal))
    (h : pyIsStr (pyOr (pyLookup kvs "message")
      (pyOr (pyLookup kvs "error") (.str "HTTP 403"))) = true) :
    ∃ s, renew_subdomain (.response 403 ct (Option.some (.dict kvs)))
      = Except.ok ⟨"failed", .str (s ++ "（域名尚未进入续期窗口，需到期前180天内续期）")⟩ := by
  obtain ⟨s, hs⟩ := (pyIsStr_iff _).mp h
  refine ⟨s, ?_⟩
  have hs' : pyOr (pyLookup kvs "message")
      (pyOr (pyLookup kvs "error") (.str ("HTTP " ++ toString (403 : Nat)))) = .str s := hs
  have hc : call_api (.response 403 ct (Option.some (.dict kvs)))
      = .dict [("success", .bool false),
               ("error", .str (s ++ "（域名尚未进入续期窗口，需到期前180天内续期）")),
               ("http_status", .int (Int.ofNat 403))] := by
    simp [call_api, hs', pyIAddStr]
  rw [renew_subdomain, hc]
  have ht : truthy (.str (s ++ "（域名尚未进入续期窗口，需到期前180天内续期）")) = true :=
    truthy_str_append_right s "（域名尚未进入续期窗口，需到期前180天内续期）" (by decide)
  simp [renew_classify, pyLookup, pyFind, pyOr, ht,
    show truthy (PyVal.bool false) = false from rfl,
    show truthy PyVal.none = false from rfl]

/-- Witness for C1 at a 403 response with the empty JSON object body. -/
theorem renew_403_object_body_hint_witness :
    pyIsStr (pyOr (pyLookup ([] : List (String × PyVal)) "message")
      (pyOr (pyLookup ([] : List (String × PyVal)) "error") (.str "HTTP 403"))) = true
    ∧ ∃ s, renew_subdomain (.response 403 "application/json" (Option.some (.dict [])))
      = Except.ok ⟨"failed", .str (s ++ "（域名尚未进入续期窗口，需到期前180天内续期）")⟩ :=
  ⟨rfl, renew_403_object_body_hint "application/json" [] rfl⟩

/-- C8: when the account has truthy credentials and the list call's
normalized response is an object with a falsy `success` field (in particular
`false` or absent), `process_account` returns the error-marker result whose
message is the response's `message` field, else its `error` field, else the
generic `"列表获取失败"` text, and exactly one API call — the list call —
was made, i.e. no renewal call happened for that account. -/
theorem list_failure_error_marker_no_renew
    (akvs lkvs : List (String × PyVal)) (listNet : NetResult) (renewNet : Nat → NetResult)
    (hk : truthy (pyLookup akvs "key") = true)
    (hs : truthy (pyLookup akvs "secret") = true)
    (hl : call_api listNet = .dict lkvs)
    (hsuc : pyLookup lkvs "success" = .bool false ∨ pyFind lkvs "success" = Option.none) :
    process_account (.dict akvs) listNet renewNet
      = Except.ok (.error (pyOr (pyLookup lkvs "message")
          (pyOr (pyLookup lkvs "error") (.str "列表获取失败"))), 1) := by
  have hsf : truthy (pyLookup lkvs "success") = false := by
    rcases hsuc with h | h
    · rw [h]; rfl
    · rw [pyLookup, h]; rfl
  simp [process_account, hk, hs, hl, hsf]

/-- Witness for C8 at a concrete account and a `success: false` list
response carrying a provider message. -/
theorem list_failure_error_marker_no_renew_witness :
    truthy (pyLookup [("key", PyVal.str "k"), ("secret", PyVal.str "s")] "key") = true
    ∧ truthy (pyLookup [("key", PyVal.str "k"), ("secret", PyVal.str "s")] "secret") = true
    ∧ call_api (.response 200 "" (Option.some (.dict
        [("success", PyVal.bool false), ("message", PyVal.str "bad key")])))
      = .dict [("success", PyVal.bool false), ("message", PyVal.str "bad key")]
    ∧ process_account (.dict [("key", PyVal.str "k"), ("secret", PyVal.str "s")])
        (.response 200 "" (Option.some (.dict
          [("success", PyVal.bool false), ("message", PyVal.str "bad key")])))
        (fun _ => NetResult.timeout)
      = Except.ok (.error (.str "bad key"), 1) :=
  ⟨rfl, rfl, rfl,
   list_failure_error_marker_no_renew
     [("key", PyVal.str "k"), ("secret", PyVal.str "s")]
     [("success", PyVal.bool false), ("message", PyVal.str "bad key")]
     (.response 200 "" (Option.some (.dict
       [("success", PyVal.bool false), ("message", PyVal.str "bad key")])))
     (fun _ => NetResult.timeout) rfl rfl rfl (Or.inl rfl)⟩

/-- When processing every account succeeds (no uncaught exception), the
account loop completes with one indexed entry per account. -/
lemma runAux_all_ok (listNet : Nat → NetResult) (renewNet : Nat → Nat → NetResult) :
    ∀ (accounts : List PyVal) (i : Nat),
      (∀ j : Fin accounts.length,
        isOkE (process_account (accounts.get j) (listNet (i + j.val)) (renewNet (i + j.val)))
          = true) →
      ∃ rs c, runAccountsAux listNet renewNet accounts i = Except.ok (rs, c)
        ∧ rs.length = accounts.length
        ∧ ∀ j : Fin rs.length, (rs.get j).1 = i + j.val := by
  intro accounts
  induction accounts with
  | nil =>
    intro i _
    exact ⟨[], 0, rfl, rfl, fun j => absurd j.isLt (by simp)⟩
  | cons a rest ih =>
    intro i h
    have h0 : isOkE (process_account a (listNet i) (renewNet i)) = true :=
      h ⟨0, by simp⟩
    cases hp : process_account a (listNet i) (renewNet i) with
    | error e => rw [hp] at h0; exact absurd h0 (by simp [isOkE])
    | ok rc =>
      obtain ⟨r, c0⟩ := rc
      obtain ⟨rs', c', hrun, hlen, hidx⟩ := ih (i + 1) (fun j => by
        have hj : j.val + 1 < (a :: rest).length := Nat.succ_lt_succ j.isLt
        have := h ⟨j.val + 1, hj⟩
        have harith : i + (j.val + 1) = (i + 1) + j.val := by omega
        rw [harith] at this
        exact this)
      refine ⟨(i, r) :: rs', c0 + c', ?_, by simp [hlen], ?_⟩
      · simp [runAccountsAux, hp, hrun]
      · intro j
        rcases j with ⟨jv, hj⟩
        cases jv with
        | zero => rfl
        | succ jj =>
          exact (hidx ⟨jj, by simpa using Nat.lt_of_succ_lt_succ hj⟩).trans
            (show (i + 1) + jj = i + (jj + 1) by omega)

/-- C3 amended: for every input sequence of account entries, provided
processing each individual account raises no uncaught exception (which in
particular requires every entry to be a JSON object), no per-account result
value — skipped, error marker, informational marker, or renewal results —
aborts the run: the loop completes and every account contributes exactly one
entry, in order, carrying its index. -/
theorem run_continues_when_processing_ok (accounts : List PyVal)
    (listNet : Nat → NetResult) (renewNet : Nat → Nat → NetResult)
    (h : ∀ j : Fin accounts.length,
      isOkE (process_account (accounts.get j) (listNet j.val) (renewNet j.val)) = true) :
    ∃ rs c, runAccountsAux listNet renewNet accounts 0 = Except.ok (rs, c)
      ∧ rs.length = accounts.length
      ∧ ∀ j : Fin rs.length, (rs.get j).1 = j.val := by
  have h' : ∀ j : Fin accounts.length,
      isOkE (process_account (accounts.get j) (listNet (0 + j.val)) (renewNet (0 + j.val)))
        = true := by
    intro j; rw [Nat.zero_add]; exact h j
  obtain ⟨rs, c, hrun, hlen, hidx⟩ := runAux_all_ok listNet renewNet accounts 0 h'
  exact ⟨rs, c, hrun, hlen, fun j => by rw [hidx j, Nat.zero_add]⟩

/-- Witness for C3 at a two-account list whose entries are both processed
without exception (both are skipped for missing credentials). -/
theorem run_continues_when_processing_ok_witness :
    (∀ j : Fin ([PyVal.dict [], PyVal.dict []] : List PyVal).length,
      isOkE (process_account (([PyVal.dict [], PyVal.dict []] : List PyVal).get j)
        ((fun _ => NetResult.timeout) j.val) ((fun _ _ => NetResult.timeout) j.val)) = true)
    ∧ ∃ rs c, runAccountsAux (fun _ => NetResult.timeout) (fun _ _ => NetResult.timeout)
        [PyVal.dict [], PyVal.dict []] 0 = Except.ok (rs, c)
      ∧ rs.length = ([PyVal.dict [], PyVal.dict []] : List PyVal).length
      ∧ ∀ j : Fin rs.length, (rs.get j).1 = j.val :=
  ⟨by decide,
   run_continues_when_processing_ok [PyVal.dict [], PyVal.dict []]
     (fun _ => NetResult.timeout) (fun _ _ => NetResult.timeout) (by decide)⟩

/-- C3 counterexample: an account entry that is not an object (here the
number `5`) makes `account.get("key")` raise an uncaught `AttributeError`,
aborting the whole run — the second (valid) account is never processed and
no account contributes an entry. -/
theorem run_aborts_on_nondict_account :
    runAccountsAux (fun _ => NetResult.timeout) (fun _ _ => NetResult.timeout)
      [.int 5, .dict [("key", .str "k"), ("secret", .str "s")]] 0
      = Except.error "\x27int\x27 object has no attribute \x27get\x27" := rfl

/-- Whenever the account loop completes, it holds exactly one entry per
account. -/
lemma runAux_length (listNet : Nat → NetResult) (renewNet : Nat → Nat → NetResult) :
    ∀ (accounts : List PyVal) (i : Nat) rs c,
      runAccountsAux listNet renewNet accounts i = Except.ok (rs, c) →
      rs.length = accounts.length := by
  intro accounts
  induction accounts with
  | nil =>
    intro i rs c h
    simp only [runAccountsAux] at h
    cases h
    rfl
  | cons a rest ih =>
    intro i rs c h
    simp only [runAccountsAux] at h
    cases hp : process_account a (listNet i) (renewNet i) with
    | error e => rw [hp] at h; cases h
    | ok rc =>
      obtain ⟨r, c0⟩ := rc
      rw [hp] at h
      cases hr : runAccountsAux listNet renewNet rest (i + 1) with
      | error e => rw [hr] at h; cases h
      | ok rsc =>
        obtain ⟨rs', c'⟩ := rsc
        rw [hr] at h
        cases h
        simp [ih (i + 1) rs' c' hr]

/-- Whenever the renewal loop completes, it holds exactly one outcome per
listed entry with a truthy identifier. -/
lemma renewLoop_length (renewNet : Nat → NetResult) :
    ∀ (subs : List PyVal) (i : Nat) rs c,
      renewLoop renewNet subs i = Except.ok (rs, c) →
      rs.length = subs.countP subHasId := by
  intro subs
  induction subs with
  | nil =>
    intro i rs c h
    simp only [renewLoop] at h
    cases h
    rfl
  | cons sub rest ih =>
    intro i rs c h
    cases sub with
    | dict skvs =>
      simp only [renewLoop] at h
      by_cases hid : truthy (pyLookup skvs "id") = true
      · rw [if_pos hid] at h
        cases hs : renew_subdomain (renewNet i) with
        | error e => rw [hs] at h; cases h
        | ok res =>
          rw [hs] at h
          cases hr : renewLoop renewNet rest (i + 1) with
          | error e => rw [hr] at h; cases h
          | ok rsc =>
            obtain ⟨rs', c'⟩ := rsc
            rw [hr] at h
            cases h
            simp [List.countP_cons, subHasId, hid, ih (i + 1) rs' c' hr]
      · rw [if_neg hid] at h
        have := ih (i + 1) rs c h
        simp [List.countP_cons, subHasId, hid, this]
    | none => simp only [renewLoop] at h; cases h
    | bool b => simp only [renewLoop] at h; cases h
    | int n => simp only [renewLoop] at h; cases h
    | str s => simp only [renewLoop] at h; cases h
    | list xs => simp only [renewLoop] at h; cases h

/-- C4 amended: whenever the run completes, every account contributes
exactly one entry to the report data — a skipped account is not dropped but
contributes an entry with the null (skipped) result — and every listed
subdomain entry with a truthy identifier produces exactly one renewal
outcome. -/
theorem one_entry_per_account_one_outcome_per_id :
    (∀ (listNet : Nat → NetResult) (renewNet : Nat → Nat → NetResult)
       (accounts : List PyVal) (i : Nat) rs c,
      runAccountsAux listNet renewNet accounts i = Except.ok (rs, c) →
      rs.length = accounts.length)
    ∧ (∀ (renewNet : Nat → NetResult) (subs : List PyVal) (i : Nat) rs c,
      renewLoop renewNet subs i = Except.ok (rs, c) →
      rs.length = subs.countP subHasId) :=
  ⟨fun listNet renewNet => runAux_length listNet renewNet,
   fun renewNet => renewLoop_length renewNet⟩

/-- Witness for C4 at a one-account run and at a two-entry renewal loop in
which only the entry with a truthy identifier is renewed. -/
theorem one_entry_per_account_one_outcome_per_id_witness :
    ([((0 : Nat), AccountResult.skipped)].length = ([PyVal.dict []] : List PyVal).length)
    ∧ ([(PyVal.str "None.None",
          (⟨"failed", PyVal.str "请求超时"⟩ : RenewalOutcome))].length
        = ([PyVal.dict [("id", PyVal.str "x")], PyVal.dict [("id", PyVal.str "")]]
            : List PyVal).countP subHasId) :=
  ⟨one_entry_per_account_one_outcome_per_id.1
     (fun _ => NetResult.timeout) (fun _ _ => NetResult.timeout)
     [PyVal.dict []] 0 [((0 : Nat), AccountResult.skipped)] 0 rfl,
   one_entry_per_account_one_outcome_per_id.2
     (fun _ => NetResult.timeout)
     [PyVal.dict [("id", PyVal.str "x")], PyVal.dict [("id", PyVal.str "")]] 0
     [(PyVal.str "None.None", (⟨"failed", PyVal.str "请求超时"⟩ : RenewalOutcome))] 1 rfl⟩

/-- C4 counterexample: an account skipped for missing credentials still
contributes an entry — with the null result — to the collected report data,
although the claim says a skipped account contributes no entry. -/
theorem skipped_account_contributes_entry :
    runAccountsAux (fun _ => NetResult.timeout) (fun _ _ => NetResult.timeout)
      [.dict []] 0 = Except.ok ([(0, AccountResult.skipped)], 0)
    ∧ [((0 : Nat), AccountResult.skipped)].length ≠ 0 :=
  ⟨rfl, by decide⟩

/-- `Bool`-valued "the process terminated cleanly with exit status zero". -/
def exitsZero : MainOutcome → Bool
| .exited 0 _ _ => true
| _ => false

/-- C7 counterexample: the well-formed JSON array `["x"]` — whose single
entry is not an object — makes the run crash with an uncaught
`AttributeError` (a nonzero process exit), although the claim says every
well-formed array input exits with status zero. -/
theorem wellformed_array_crashes :
    mainRun (.parsed (.list [.str "x"])) (fun _ => NetResult.timeout)
      (fun _ _ => NetResult.timeout) Option.none
      = .crashed "\x27str\x27 object has no attribute \x27get\x27"
    ∧ exitsZero (mainRun (.parsed (.list [.str "x"])) (fun _ => NetResult.timeout)
        (fun _ _ => NetResult.timeout) Option.none) = false :=
  ⟨rfl, rfl⟩

/-- C7 amended: a missing, unparseable, or non-array `ACCOUNTS_JSON`
input exits with status 1 before any network call (zero API calls, no
report); and for a well-formed array input whose account loop completes
without an uncaught exception, the process exits with status zero whatever
the individual renewal outcomes were. -/
theorem exit_codes_spec :
    (∀ (listNet : Nat → NetResult) (renewNet : Nat → Nat → NetResult)
       (summary : Option String),
      mainRun .unset listNet renewNet summary = .exited 1 0 Option.none
      ∧ mainRun .parseError listNet renewNet summary = .exited 1 0 Option.none
      ∧ ∀ v : PyVal, pyIsList v = false →
          mainRun (.parsed v) listNet renewNet summary = .exited 1 0 Option.none)
    ∧ (∀ (listNet : Nat → NetResult) (renewNet : Nat → Nat → NetResult)
       (summary : Option String) (accounts : List PyVal) rs c,
      runAccountsAux listNet renewNet accounts 0 = Except.ok (rs, c) →
      mainRun (.parsed (.list accounts)) listNet renewNet summary
        = .exited 0 c (summary.map (fun ts => renderReport ts (rs.map Prod.snd)))) := by
  constructor
  · intro listNet renewNet summary
    refine ⟨rfl, rfl, ?_⟩
    intro v hv
    cases v with
    | list xs => simp [pyIsList] at hv
    | none => rfl
    | bool b => rfl
    | int n => rfl
    | str s => rfl
    | dict kvs => rfl
  · intro listNet renewNet summary accounts rs c h
    simp [mainRun, h]

/-- Witness for C7: a non-array input exits 1 with zero API calls, and the
empty well-formed array exits 0 with the (empty) report rendered. -/
theorem exit_codes_spec_witness :
    (pyIsList (PyVal.int 7) = false
      ∧ mainRun (.parsed (PyVal.int 7)) (fun _ => NetResult.timeout)
          (fun _ _ => NetResult.timeout) Option.none = .exited 1 0 Option.none)
    ∧ (runAccountsAux (fun _ => NetResult.timeout) (fun _ _ => NetResult.timeout) [] 0
          = Except.ok ([], 0)
      ∧ mainRun (.parsed (.list [])) (fun _ => NetResult.timeout)
          (fun _ _ => NetResult.timeout) (Option.some "2026-01-01 00:00:00")
        = .exited 0 0 (Option.some (renderReport "2026-01-01 00:00:00" []))) :=
  ⟨⟨rfl, ((exit_codes_spec.1 (fun _ => NetResult.timeout) (fun _ _ => NetResult.timeout)
      Option.none).2.2 (PyVal.int 7) rfl)⟩,
   ⟨rfl, exit_codes_spec.2 (fun _ => NetResult.timeout) (fun _ _ => NetResult.timeout)
      (Option.some "2026-01-01 00:00:00") [] [] 0 rfl⟩⟩

end DnsheRenew
